import Mathlib

/-!
Verification development for the Warsaw bus punctuality analyser.

The definitions below are a shallow embedding of the Python sources:
  * `analyse/tools.py` — `calculate_distance`, `calculate_velocity`, `get_busID`;
  * `analyse/prepare_punctionality.py` — `Punctionality.__find_closest_stop`
    (the Stop Matcher), `Punctionality.__update_data_to_save` (the Deviation
    Reducer) and the per-fix body of `Punctionality.prepare_data` (the
    Dataset Builder loop).

Python floats are modelled as real numbers, `datetime` time-of-day values as
(hour, minute, second) triples of naturals, and Python dicts as association
lists in insertion order (Python dicts iterate in insertion order).
-/

namespace WarsawBus

/-- Model of Python's `math.atan2(y, x)`: four-quadrant arctangent. -/
noncomputable def atan2 (y x : ℝ) : ℝ :=
  if 0 < x then Real.arctan (y / x)
  else if x < 0 then
    (if 0 ≤ y then Real.arctan (y / x) + Real.pi else Real.arctan (y / x) - Real.pi)
  else
    (if 0 < y then Real.pi / 2 else if y < 0 then -(Real.pi / 2) else 0)

/-- `tools.calculate_distance`: Haversine distance in kilometres.
`math.radians x` is `x * π / 180`. -/
noncomputable def calculate_distance (lat1 lon1 lat2 lon2 : ℝ) : ℝ :=
  let R : ℝ := 6371
  let lat1_rad := lat1 * Real.pi / 180
  let lon1_rad := lon1 * Real.pi / 180
  let lat2_rad := lat2 * Real.pi / 180
  let lon2_rad := lon2 * Real.pi / 180
  let dlat := lat2_rad - lat1_rad
  let dlon := lon2_rad - lon1_rad
  let a := Real.sin (dlat / 2) ^ 2 +
    Real.cos lat1_rad * Real.cos lat2_rad * Real.sin (dlon / 2) ^ 2
  let c := 2 * atan2 (Real.sqrt a) (Real.sqrt (1 - a))
  R * c

/-- `tools.calculate_velocity`: speed in km/h from two fixes and elapsed
seconds; `0` when `time == 0`, and any value above 90 km/h is replaced by
50 km/h. -/
noncomputable def calculate_velocity (lat1 lon1 lat2 lon2 time : ℝ) : ℝ :=
  let distance := calculate_distance lat1 lon1 lat2 lon2
  let velocity := if time = 0 then 0 else distance / (time / 3600)
  if velocity > 90 then 50 else velocity

/-- `tools.get_busID`: the run key tuple (VehicleNumber, Line, Brigade). -/
def get_busID (vehicle_number line brigade : String) : String × String × String :=
  (vehicle_number, line, brigade)

/-- A wall-clock time value `HH:MM:SS` as parsed by `datetime.strptime`;
schedule entries may carry an hour of 24 or more (past-midnight). -/
structure HMS where
  h : ℕ
  m : ℕ
  s : ℕ
deriving DecidableEq, Repr

/-- Seconds since midnight of an `HMS` value. -/
def toSecOfDay (t : HMS) : ℕ :=
  t.h * 3600 + t.m * 60 + t.s

/-- Lines 248-250 of `prepare_punctionality.py`: a schedule hour of 24 or
more is reduced by 24 before the entry is parsed. -/
def fixScheduleHour (t : HMS) : HMS :=
  if 24 ≤ t.h then ⟨t.h - 24, t.m, t.s⟩ else t

/-- Lines 252-257: `abs((strptime(stop_time) - strptime(bus_time)).seconds)`.
Both datetimes share the default date, so the timedelta holds
`stopSec - busSec` seconds; its `.seconds` attribute is that signed value
reduced modulo 86400 into `[0, 86400)` (Python's floor-mod, which for the
positive modulus agrees with `Int.emod`), and `abs` is applied to it. -/
def timeDiff (stopTime busTime : HMS) : ℕ :=
  (((toSecOfDay stopTime : ℤ) - (toSecOfDay busTime : ℤ)) % 86400).natAbs

/-- Lines 247-259: the inner loop over the scheduled times of one stop;
each time is hour-normalized, diffed against the fix's time-of-day, and
folded into the running `min_time`. -/
def foldTimes (busTime : HMS) (minTime : ℕ) (times : List HMS) : ℕ :=
  times.foldl (fun m st => min m (timeDiff (fixScheduleHour st) busTime)) minTime

/-- One vehicle fix (a record of a snapshot array).  `timeOfDay` is the
`HH:MM:SS` part of the `Time` field: lines 243-245 round-trip the parsed
timestamp through `strftime("%H:%M:%S")`, which drops the date. -/
structure Fix where
  vehicleNumber : String
  lines : String
  brigade : String
  lat : ℝ
  lon : ℝ
  timeOfDay : HMS

/-- Python `dict` membership / indexing on an insertion-ordered
association list (first matching key). -/
def alookup {α β : Type} [DecidableEq α] (l : List (α × β)) (k : α) : Option β :=
  match l with
  | [] => none
  | p :: rest => if p.1 = k then some p.2 else alookup rest k

/-- The stop registry `bus_stops`: stopId to (szer_geo, dlug_geo). -/
abbrev Registry := List (String × ℝ × ℝ)

/-- The timetable of one run, `schedule[lines][brigade]`: stopId to the
ordered list of scheduled times, in dict insertion order. -/
abbrev RunSchedule := List (String × List HMS)

/-- The state of `__find_closest_stop`'s loop and its return value:
`(closest_stop, delta_dist, min_time)`. -/
abbrev MatchState := Option String × ℝ × ℕ

/-- Lines 231-268 of `prepare_punctionality.py`: the body of the loop
`for stop in schedule[bus["Lines"]][bus["Brigade"]].keys()`.  A stop
missing from the registry is skipped; otherwise its distance from the fix
is compared against `delta_dist`; on admission the scheduled times are
folded into `min_time`, and the stop is accepted unless `min_time >= 3600`
(a `continue` that keeps `closest_stop` and `delta_dist` but retains the
updated `min_time`). -/
noncomputable def stepStop (bus_stops : Registry) (bus : Fix)
    (st : MatchState) (entry : String × List HMS) : MatchState :=
  match alookup bus_stops entry.1 with
  | none => st
  | some coords =>
    let distance := calculate_distance bus.lat bus.lon coords.1 coords.2
    if distance < st.2.1 then
      let min_time := foldTimes bus.timeOfDay st.2.2 entry.2
      if 3600 ≤ min_time then (st.1, st.2.1, min_time)
      else (some entry.1, distance, min_time)
    else st

/-- `Punctionality.__find_closest_stop` (lines 211-270): fold the loop body
over the run's timetable starting from
`delta_dist = 0.01`, `closest_stop = None`, `min_time = 3600`. -/
noncomputable def find_closest_stop (bus : Fix) (run_schedule : RunSchedule)
    (bus_stops : Registry) : MatchState :=
  run_schedule.foldl (stepStop bus_stops bus) (none, 0.01, 3600)

/-- A Best-Deviation Record `(DiffTime, DiffDist, BusLat, BusLon)`. -/
abbrev BestRec := ℕ × ℝ × ℝ × ℝ

/-- The run key `(VehicleNumber, Lines, Brigade)`. -/
abbrev RunKey := String × String × String

/-- The accumulating `data_to_save` table: run key to (stopId to record),
both levels in dict insertion order. -/
abbrev Table := List (RunKey × List (String × BestRec))

/-- Python `d[k] = v` for a key already present: replace in place,
preserving insertion order. -/
def dictSet {α β : Type} [DecidableEq α] (l : List (α × β)) (k : α) (v : β) :
    List (α × β) :=
  l.map (fun p => if p.1 = k then (k, v) else p)

/-- The inner-dict part of `__update_data_to_save`: insert the record if
the stop is absent, else overwrite only when the new `time` is strictly
smaller than the stored one. -/
def updateInner (inner : List (String × BestRec)) (stop : String) (r : BestRec) :
    List (String × BestRec) :=
  match alookup inner stop with
  | none => inner ++ [(stop, r)]
  | some old => if r.1 < old.1 then dictSet inner stop r else inner

/-- `Punctionality.__update_data_to_save` (lines 272-310): ensure the run
key maps to an inner dict, then insert-or-min the record
`(time, delta_dist, bus["Lat"], bus["Lon"])` at `closest_stop`, and return
the table. -/
def update_data_to_save (data : Table) (bus_id : RunKey) (closest_stop : String)
    (busLat busLon : ℝ) (time : ℕ) (delta_dist : ℝ) : Table :=
  let r : BestRec := (time, delta_dist, busLat, busLon)
  match alookup data bus_id with
  | none => data ++ [(bus_id, updateInner [] closest_stop r)]
  | some inner => dictSet data bus_id (updateInner inner closest_stop r)

/-- Lookup of the record of one (run key, stopId) pair. -/
def lookup2 (data : Table) (b : RunKey) (s : String) : Option BestRec :=
  (alookup data b).bind (fun inner => alookup inner s)

/-- Folding a sequence of observations `(time, delta_dist, lat, lon)` for a
fixed (run key, stopId) pair through the reducer. -/
def foldObs (data : Table) (b : RunKey) (s : String) (obs : List BestRec) : Table :=
  obs.foldl (fun acc o => update_data_to_save acc b s o.2.2.1 o.2.2.2 o.1 o.2.1) data

/-- Python `int(...)` on the line-identifier strings: defined for nonempty
all-digit strings (leading zeros allowed, so `int("042") = 42`); any other
string makes `int` raise, modelled as `none`.  (Python's `int` also accepts
signs and surrounding whitespace; line identifiers are plain digit
strings.) -/
def pyInt (s : String) : Option ℕ :=
  if s.data ≠ [] ∧ s.data.all (fun c => c.isDigit) then
    some (s.data.foldl (fun n c => n * 10 + (c.toNat - 48)) 0)
  else none

/-- Lines 141-144 of `prepare_data`: the tram filter.  `some true` means the
fix is skipped as a tram, `some false` that it is kept, `none` that
`int(bus["Lines"])` raises (a fatal error).  Python's `<` on strings is
lexicographic on code points, which is exactly Lean's `List.lt` on the
underlying character lists (`String.lt` is defined as that relation; we
compare the lists directly so that the test is kernel-decidable). -/
def tramCheck (lines : String) : Option Bool :=
  if lines.data < "999".data then (pyInt lines).map (fun n => decide (n < 100))
  else some false

/-- The per-fix body of `Punctionality.prepare_data` (lines 140-169), with
the lazily-cached schedule passed as data: tram filter, run key, per-line
timetable lookup (a missing line file is fatal: `none`), brigade check,
stop matching, and the reducer fold.  `some data` with the table unchanged
models a `continue`. -/
noncomputable def processBus (data : Table)
    (schedule : List (String × List (String × RunSchedule)))
    (bus_stops : Registry) (bus : Fix) : Option Table :=
  match tramCheck bus.lines with
  | none => none
  | some true => some data
  | some false =>
    let bus_id := get_busID bus.vehicleNumber bus.lines bus.brigade
    match alookup schedule bus.lines with
    | none => none
    | some line_schedule =>
      match alookup line_schedule bus.brigade with
      | none => some data
      | some run_schedule =>
        let result := find_closest_stop bus run_schedule bus_stops
        match result.1 with
        | none => some data
        | some closest_stop =>
          some (update_data_to_save data bus_id closest_stop bus.lat bus.lon
            result.2.2 result.2.1)

/-! ### Closed form and exact values of the Haversine distance -/

lemma calculate_distance_def (lat1 lon1 lat2 lon2 : ℝ) :
    calculate_distance lat1 lon1 lat2 lon2 =
      6371 * (2 * atan2
        (Real.sqrt (Real.sin ((lat2 * Real.pi / 180 - lat1 * Real.pi / 180) / 2) ^ 2 +
          Real.cos (lat1 * Real.pi / 180) * Real.cos (lat2 * Real.pi / 180) *
            Real.sin ((lon2 * Real.pi / 180 - lon1 * Real.pi / 180) / 2) ^ 2))
        (Real.sqrt (1 - (Real.sin ((lat2 * Real.pi / 180 - lat1 * Real.pi / 180) / 2) ^ 2 +
          Real.cos (lat1 * Real.pi / 180) * Real.cos (lat2 * Real.pi / 180) *
            Real.sin ((lon2 * Real.pi / 180 - lon1 * Real.pi / 180) / 2) ^ 2)))) := rfl

/-- For two points on the same meridian the Haversine formula gives exactly
`R * |Δlat in radians|`, provided the latitude difference stays below 180
degrees. -/
lemma calculate_distance_same_lon (lat1 lat2 lon : ℝ) (h : |lat2 - lat1| < 180) :
    calculate_distance lat1 lon lat2 lon = 6371 * (|lat2 - lat1| * Real.pi / 180) := by
  have hπ : (0 : ℝ) < Real.pi := Real.pi_pos
  set t := (lat2 * Real.pi / 180 - lat1 * Real.pi / 180) / 2 with ht
  have hteq : t = (lat2 - lat1) * (Real.pi / 360) := by rw [ht]; ring
  have htabs : |t| = |lat2 - lat1| * (Real.pi / 360) := by
    rw [hteq, abs_mul, abs_of_pos (by positivity : (0 : ℝ) < Real.pi / 360)]
  have htlt : |t| < Real.pi / 2 := by
    rw [htabs]
    calc |lat2 - lat1| * (Real.pi / 360) < 180 * (Real.pi / 360) :=
          mul_lt_mul_of_pos_right h (by positivity)
      _ = Real.pi / 2 := by ring
  have hcos : 0 < Real.cos t :=
    Real.cos_pos_of_mem_Ioo ⟨neg_lt_of_abs_lt htlt, lt_of_abs_lt htlt⟩
  have hlon : (lon * Real.pi / 180 - lon * Real.pi / 180) / 2 = 0 := by ring
  rw [calculate_distance_def, hlon, ← ht]
  rw [Real.sin_zero]
  rw [show (0 : ℝ) ^ 2 = 0 by norm_num, mul_zero, add_zero]
  rw [Real.sqrt_sq_eq_abs]
  rw [show (1 : ℝ) - Real.sin t ^ 2 = Real.cos t ^ 2 from (Real.cos_sq' t).symm]
  rw [Real.sqrt_sq_eq_abs, abs_of_pos hcos]
  unfold atan2
  rw [if_pos hcos]
  have habs_sin : |Real.sin t| = Real.sin |t| := by
    rcases le_or_lt 0 t with h0 | h0
    · rw [abs_of_nonneg h0,
        abs_of_nonneg (Real.sin_nonneg_of_nonneg_of_le_pi h0
          (le_of_lt (lt_of_lt_of_le (lt_of_abs_lt htlt) (by linarith))))]
    · have hsneg : Real.sin t < 0 :=
        Real.sin_neg_of_neg_of_neg_pi_lt h0 (by have := neg_lt_of_abs_lt htlt; linarith)
      rw [abs_of_neg h0, abs_of_neg hsneg]
      rw [Real.sin_neg]
  rw [habs_sin, ← Real.cos_abs t, ← Real.tan_eq_sin_div_cos,
    Real.arctan_tan (by have := abs_nonneg t; linarith) htlt, htabs]
  ring

/-- The Haversine distance from a point to itself is 0. -/
lemma calculate_distance_self (lat lon : ℝ) : calculate_distance lat lon lat lon = 0 := by
  rw [calculate_distance_same_lon lat lat lon (by rw [sub_self, abs_zero]; norm_num)]
  simp

set_option maxHeartbeats 1000000 in
/-- Scenario C5's far stop: stop "1" at (51.3, 21.0) is not within 0.01 km
of the fix at (52.3, 21.2); in fact the distance exceeds 100 km. -/
lemma far_stop_distance_ge : (0.01 : ℝ) ≤ calculate_distance 52.3 21.2 51.3 21.0 := by
  have hπ : (0 : ℝ) < Real.pi := Real.pi_pos
  have hπ2 : Real.pi < 3.15 := Real.pi_lt_d2
  have hπ1 : (3.14 : ℝ) < Real.pi := Real.pi_gt_d2
  have e1 : ((51.3 : ℝ) * Real.pi / 180 - 52.3 * Real.pi / 180) / 2 = -(Real.pi / 360) := by
    have h : (51.3 : ℝ) - 52.3 = -1 := by norm_num
    linear_combination (Real.pi / 360) * h
  have e2 : ((21.0 : ℝ) * Real.pi / 180 - 21.2 * Real.pi / 180) / 2 = -(Real.pi / 1800) := by
    have h : (21.0 : ℝ) - 21.2 = -0.2 := by norm_num
    linear_combination (Real.pi / 360) * h
  rw [calculate_distance_def, e1, e2, Real.sin_neg, Real.sin_neg, neg_sq, neg_sq]
  set s := Real.sin (Real.pi / 360) with hs
  set u := Real.sin (Real.pi / 1800) with hu
  set c1 := Real.cos (52.3 * Real.pi / 180) with hc1
  set c2 := Real.cos (51.3 * Real.pi / 180) with hc2
  have hs_pos : 0 < s := Real.sin_pos_of_pos_of_lt_pi (by positivity) (by linarith)
  have hs_lt : s < Real.pi / 360 := Real.sin_lt (by positivity)
  have hs_lb : (0.008 : ℝ) ≤ s := by
    have hxlt : Real.pi / 360 < 0.00875 := by linarith
    have hx0 : (0 : ℝ) ≤ Real.pi / 360 := by positivity
    have hp3 : (Real.pi / 360) ^ 3 ≤ (0.00875 : ℝ) ^ 3 :=
      pow_le_pow_left hx0 (le_of_lt hxlt) 3
    have hcube : Real.pi / 360 - (Real.pi / 360) ^ 3 / 4 < s :=
      Real.sin_gt_sub_cube (by positivity) (by linarith)
    have hc3 : ((0.00875 : ℝ)) ^ 3 ≤ 0.000001 := by norm_num
    linarith
  have hu_pos : 0 < u := Real.sin_pos_of_pos_of_lt_pi (by positivity) (by linarith)
  have hu_lt : u < Real.pi / 1800 := Real.sin_lt (by positivity)
  have hc1_pos : 0 < c1 := by
    apply Real.cos_pos_of_mem_Ioo
    constructor
    · have h0 : (0 : ℝ) < 52.3 * Real.pi / 180 := by positivity
      linarith
    · linarith
  have hc2_pos : 0 < c2 := by
    apply Real.cos_pos_of_mem_Ioo
    constructor
    · have h0 : (0 : ℝ) < 51.3 * Real.pi / 180 := by positivity
      linarith
    · linarith
  have hc1_le : c1 ≤ 1 := Real.cos_le_one _
  have hc2_le : c2 ≤ 1 := Real.cos_le_one _
  set A := s ^ 2 + c1 * c2 * u ^ 2 with hA
  have hterm : 0 ≤ c1 * c2 * u ^ 2 := by positivity
  have hA_pos : 0 < A := by
    have hsq : 0 < s ^ 2 := pow_pos hs_pos 2
    linarith
  have hA_lb : s ^ 2 ≤ A := by linarith
  have hA_ub : A < 1 := by
    have hs_up : s < 0.00875 := by linarith
    have hu_up : u < 0.00175 := by linarith
    have hs2 : s ^ 2 ≤ (0.00875 : ℝ) ^ 2 :=
      pow_le_pow_left (le_of_lt hs_pos) (le_of_lt hs_up) 2
    have hu2 : u ^ 2 ≤ (0.00175 : ℝ) ^ 2 :=
      pow_le_pow_left (le_of_lt hu_pos) (le_of_lt hu_up) 2
    have hc12 : c1 * c2 ≤ 1 := mul_le_one hc1_le (le_of_lt hc2_pos) hc2_le
    have hcc : c1 * c2 * u ^ 2 ≤ u ^ 2 := mul_le_of_le_one_left (sq_nonneg u) hc12
    have hnum : ((0.00875 : ℝ)) ^ 2 + (0.00175 : ℝ) ^ 2 < 1 := by norm_num
    linarith
  have h1A : 0 < 1 - A := by linarith
  have hxpos : 0 < Real.sqrt (1 - A) := Real.sqrt_pos.mpr h1A
  have hsqA_nonneg : 0 ≤ Real.sqrt A := Real.sqrt_nonneg A
  have hsqA_lt1 : Real.sqrt A < 1 := by
    rw [Real.sqrt_lt' one_pos, one_pow]
    exact hA_ub
  have hsq_eq : Real.sqrt A ^ 2 = A := Real.sq_sqrt (le_of_lt hA_pos)
  have hatan : atan2 (Real.sqrt A) (Real.sqrt (1 - A)) = Real.arcsin (Real.sqrt A) := by
    unfold atan2
    rw [if_pos hxpos, Real.arcsin_eq_arctan ⟨by linarith, hsqA_lt1⟩, hsq_eq]
  have hy0 : 0 ≤ Real.arcsin (Real.sqrt A) := Real.arcsin_nonneg.mpr hsqA_nonneg
  have hsin_arcsin : Real.sin (Real.arcsin (Real.sqrt A)) = Real.sqrt A :=
    Real.sin_arcsin (by linarith) (le_of_lt hsqA_lt1)
  have harcsin_ge : Real.sqrt A ≤ Real.arcsin (Real.sqrt A) := by
    rcases eq_or_lt_of_le hy0 with h0 | h0
    · rw [← h0] at hsin_arcsin
      rw [← h0, ← hsin_arcsin, Real.sin_zero]
    · have := Real.sin_lt h0
      rw [hsin_arcsin] at this
      exact le_of_lt this
  have hsqA_ge : s ≤ Real.sqrt A := by
    have h1 : Real.sqrt (s ^ 2) ≤ Real.sqrt A := Real.sqrt_le_sqrt hA_lb
    rwa [Real.sqrt_sq (le_of_lt hs_pos)] at h1
  rw [hatan]
  linarith

/-! ### Branch lemmas for the Stop Matcher loop body -/

lemma stepStop_missing (bus_stops : Registry) (bus : Fix) (st : MatchState)
    (stop : String) (times : List HMS) (h : alookup bus_stops stop = none) :
    stepStop bus_stops bus st (stop, times) = st := by
  unfold stepStop
  rw [show ((stop, times) : String × List HMS).1 = stop from rfl, h]

lemma stepStop_too_far (bus_stops : Registry) (bus : Fix) (st : MatchState)
    (stop : String) (times : List HMS) (coords : ℝ × ℝ)
    (h : alookup bus_stops stop = some coords)
    (hd : ¬ (calculate_distance bus.lat bus.lon coords.1 coords.2 < st.2.1)) :
    stepStop bus_stops bus st (stop, times) = st := by
  unfold stepStop
  rw [show ((stop, times) : String × List HMS).1 = stop from rfl, h]
  exact if_neg hd

lemma stepStop_reject (bus_stops : Registry) (bus : Fix) (st : MatchState)
    (stop : String) (times : List HMS) (coords : ℝ × ℝ)
    (h : alookup bus_stops stop = some coords)
    (hd : calculate_distance bus.lat bus.lon coords.1 coords.2 < st.2.1)
    (hm : 3600 ≤ foldTimes bus.timeOfDay st.2.2 times) :
    stepStop bus_stops bus st (stop, times) =
      (st.1, st.2.1, foldTimes bus.timeOfDay st.2.2 times) := by
  unfold stepStop
  rw [show ((stop, times) : String × List HMS).1 = stop from rfl, h]
  exact (if_pos hd).trans (if_pos hm)

lemma stepStop_accept (bus_stops : Registry) (bus : Fix) (st : MatchState)
    (stop : String) (times : List HMS) (coords : ℝ × ℝ)
    (h : alookup bus_stops stop = some coords)
    (hd : calculate_distance bus.lat bus.lon coords.1 coords.2 < st.2.1)
    (hm : ¬ (3600 ≤ foldTimes bus.timeOfDay st.2.2 times)) :
    stepStop bus_stops bus st (stop, times) =
      (some stop, calculate_distance bus.lat bus.lon coords.1 coords.2,
        foldTimes bus.timeOfDay st.2.2 times) := by
  unfold stepStop
  rw [show ((stop, times) : String × List HMS).1 = stop from rfl, h]
  exact (if_pos hd).trans (if_neg hm)

/-- C5: for a fix at (52.3, 21.2) with time-of-day 15:25:00 (from timestamp
2024-02-16 15:25:00) and exactly two candidate stops — stop "1" at
(51.3, 21.0) scheduled {12:00:00, 13:00:00} and stop "2" at (52.3, 21.2)
scheduled {15:30:00, 16:30:00} — the Stop Matcher returns
("2", 0.0, 300). -/
theorem C5_matcher_scenario :
    find_closest_stop
      { vehicleNumber := "1234", lines := "123", brigade := "456",
        lat := 52.3, lon := 21.2, timeOfDay := ⟨15, 25, 0⟩ }
      [("1", [⟨12, 0, 0⟩, ⟨13, 0, 0⟩]), ("2", [⟨15, 30, 0⟩, ⟨16, 30, 0⟩])]
      [("1", (51.3, 21.0)), ("2", (52.3, 21.2))] = (some "2", 0, 300) := by
  have hfar : ¬ (calculate_distance 52.3 21.2 51.3 21.0 < (0.01 : ℝ)) :=
    not_lt.mpr far_stop_distance_ge
  have hzero : calculate_distance 52.3 21.2 52.3 21.2 = 0 := calculate_distance_self _ _
  have hnear : calculate_distance 52.3 21.2 52.3 21.2 < (0.01 : ℝ) := by
    rw [hzero]; norm_num
  have hft : foldTimes ⟨15, 25, 0⟩ 3600 [⟨15, 30, 0⟩, ⟨16, 30, 0⟩] = 300 := by decide
  have hok : ¬ ((3600 : ℕ) ≤ foldTimes ⟨15, 25, 0⟩ 3600 [⟨15, 30, 0⟩, ⟨16, 30, 0⟩]) := by
    decide
  have hl1 : alookup ([("1", ((51.3 : ℝ), (21.0 : ℝ))),
      ("2", ((52.3 : ℝ), (21.2 : ℝ)))] : Registry) "1" = some ((51.3 : ℝ), (21.0 : ℝ)) := rfl
  have hl2 : alookup ([("1", ((51.3 : ℝ), (21.0 : ℝ))),
      ("2", ((52.3 : ℝ), (21.2 : ℝ)))] : Registry) "2" = some ((52.3 : ℝ), (21.2 : ℝ)) := rfl
  unfold find_closest_stop
  rw [List.foldl_cons, List.foldl_cons, List.foldl_nil]
  rw [stepStop_too_far [("1", ((51.3 : ℝ), (21.0 : ℝ))), ("2", ((52.3 : ℝ), (21.2 : ℝ)))]
    ⟨"1234", "123", "456", 52.3, 21.2, ⟨15, 25, 0⟩⟩ (none, (0.01 : ℝ), (3600 : ℕ))
    "1" [⟨12, 0, 0⟩, ⟨13, 0, 0⟩] ((51.3 : ℝ), (21.0 : ℝ)) hl1 hfar]
  rw [stepStop_accept [("1", ((51.3 : ℝ), (21.0 : ℝ))), ("2", ((52.3 : ℝ), (21.2 : ℝ)))]
    ⟨"1234", "123", "456", 52.3, 21.2, ⟨15, 25, 0⟩⟩ (none, (0.01 : ℝ), (3600 : ℕ))
    "2" [⟨15, 30, 0⟩, ⟨16, 30, 0⟩] ((52.3 : ℝ), (21.2 : ℝ)) hl2 hnear hok]
  rw [hzero, hft]

/-! ### Association-list lemmas for the Deviation Reducer -/

lemma alookup_append_of_none {α β : Type} [DecidableEq α] {l : List (α × β)} {k : α}
    (h : alookup l k = none) (l' : List (α × β)) :
    alookup (l ++ l') k = alookup l' k := by
  induction l with
  | nil => simp [alookup]
  | cons p rest ih =>
    simp only [alookup, List.cons_append] at h ⊢
    by_cases hpk : p.1 = k
    · rw [if_pos hpk] at h; cases h
    · rw [if_neg hpk] at h ⊢; exact ih h

lemma alookup_append_of_some {α β : Type} [DecidableEq α] {l : List (α × β)} {k : α}
    {v : β} (h : alookup l k = some v) (l' : List (α × β)) :
    alookup (l ++ l') k = some v := by
  induction l with
  | nil => cases h
  | cons p rest ih =>
    simp only [alookup, List.cons_append] at h ⊢
    by_cases hpk : p.1 = k
    · rw [if_pos hpk] at h ⊢; exact h
    · rw [if_neg hpk] at h ⊢; exact ih h

lemma alookup_dictSet_self {α β : Type} [DecidableEq α] (l : List (α × β)) (k : α) (v : β) :
    alookup (dictSet l k v) k = (alookup l k).map (fun _ => v) := by
  induction l with
  | nil => simp [alookup, dictSet]
  | cons p rest ih =>
    by_cases hpk : p.1 = k
    · simp [dictSet, alookup, hpk]
    · simp only [dictSet, List.map_cons] at ih ⊢
      rw [if_neg hpk]
      simp only [alookup, if_neg hpk]
      exact ih

lemma alookup_dictSet_ne {α β : Type} [DecidableEq α] (l : List (α × β)) {k k' : α}
    (v : β) (h : k' ≠ k) :
    alookup (dictSet l k v) k' = alookup l k' := by
  induction l with
  | nil => simp [dictSet]
  | cons p rest ih =>
    show alookup ((if p.1 = k then (k, v) else p) :: dictSet rest k v) k' = alookup (p :: rest) k'
    by_cases hpk : p.1 = k
    · rw [if_pos hpk]
      show (if k = k' then some v else alookup (dictSet rest k v) k') =
        alookup (p :: rest) k'
      rw [if_neg (fun he => h he.symm)]
      show alookup (dictSet rest k v) k' = (if p.1 = k' then some p.2 else alookup rest k')
      rw [if_neg (fun he => h (hpk.symm.trans he).symm), ih]
    · rw [if_neg hpk]
      show (if p.1 = k' then some p.2 else alookup (dictSet rest k v) k') =
        (if p.1 = k' then some p.2 else alookup rest k')
      rw [ih]

lemma dictSet_keys {α β : Type} [DecidableEq α] (l : List (α × β)) (k : α) (v : β) :
    (dictSet l k v).map (fun p => p.1) = l.map (fun p => p.1) := by
  induction l with
  | nil => rfl
  | cons p rest ih =>
    by_cases hpk : p.1 = k
    · simp only [dictSet, List.map_cons, if_pos hpk, List.map] at ih ⊢
      rw [hpk]
      exact congrArg (k :: ·) ih
    · simp only [dictSet, List.map_cons, if_neg hpk, List.map] at ih ⊢
      exact congrArg (p.1 :: ·) ih

lemma mem_dictSet {α β : Type} [DecidableEq α] {l : List (α × β)} {k : α} {v : β}
    {p : α × β} (h : p ∈ dictSet l k v) : p ∈ l ∨ p = (k, v) := by
  unfold dictSet at h
  rcases List.mem_map.mp h with ⟨q, hq, hfq⟩
  by_cases hqk : q.1 = k
  · right
    rw [if_pos hqk] at hfq
    exact hfq.symm
  · left
    rw [if_neg hqk] at hfq
    exact hfq ▸ hq

lemma alookup_some_mem {α β : Type} [DecidableEq α] {l : List (α × β)} {k : α} {v : β}
    (h : alookup l k = some v) : (k, v) ∈ l := by
  induction l with
  | nil => cases h
  | cons p rest ih =>
    simp only [alookup] at h
    by_cases hpk : p.1 = k
    · rw [if_pos hpk] at h
      have hv : p.2 = v := Option.some.inj h
      have hp : (k, v) = p := by
        rw [← hpk, ← hv]
      rw [hp]
      exact List.mem_cons_self p rest
    · rw [if_neg hpk] at h
      exact List.mem_cons_of_mem _ (ih h)

lemma alookup_none_not_mem {α β : Type} [DecidableEq α] {l : List (α × β)} {k : α}
    (h : alookup l k = none) : k ∉ l.map (fun p => p.1) := by
  induction l with
  | nil => simp
  | cons p rest ih =>
    simp only [alookup] at h
    by_cases hpk : p.1 = k
    · rw [if_pos hpk] at h; cases h
    · rw [if_neg hpk] at h
      simp only [List.map_cons, List.mem_cons]
      rintro (h1 | h2)
      · exact hpk h1.symm
      · exact (ih h) h2

lemma updateInner_lookup_self (inner : List (String × BestRec)) (s : String) (r : BestRec) :
    alookup (updateInner inner s r) s =
      some (match alookup inner s with
            | none => r
            | some old => if r.1 < old.1 then r else old) := by
  unfold updateInner
  cases hs : alookup inner s with
  | none =>
    rw [alookup_append_of_none hs]
    simp [alookup]
  | some old =>
    show alookup (if r.1 < old.1 then dictSet inner s r else inner) s =
      some (if r.1 < old.1 then r else old)
    by_cases hlt : r.1 < old.1
    · rw [if_pos hlt, if_pos hlt, alookup_dictSet_self, hs]
      rfl
    · rw [if_neg hlt, if_neg hlt, hs]

lemma updateInner_lookup_ne (inner : List (String × BestRec)) (s : String) (r : BestRec)
    {s' : String} (h : s' ≠ s) :
    alookup (updateInner inner s r) s' = alookup inner s' := by
  unfold updateInner
  cases hs : alookup inner s with
  | none =>
    cases hs' : alookup inner s' with
    | none =>
      rw [alookup_append_of_none hs']
      simp [alookup, if_neg (fun he : s = s' => h he.symm)]
    | some v => rw [alookup_append_of_some hs']
  | some old =>
    show alookup (if r.1 < old.1 then dictSet inner s r else inner) s' = alookup inner s'
    by_cases hlt : r.1 < old.1
    · rw [if_pos hlt, alookup_dictSet_ne _ _ h]
    · rw [if_neg hlt]

lemma updateInner_keys_nodup {inner : List (String × BestRec)} (s : String) (r : BestRec)
    (h : (inner.map (fun q => q.1)).Nodup) :
    ((updateInner inner s r).map (fun q => q.1)).Nodup := by
  unfold updateInner
  cases hs : alookup inner s with
  | none =>
    rw [List.map_append]
    rw [List.nodup_append]
    refine ⟨h, by simp, ?_⟩
    intro x hx hx'
    simp only [List.map_cons, List.map_nil, List.mem_cons, List.not_mem_nil, or_false] at hx'
    exact alookup_none_not_mem hs (hx' ▸ hx)
  | some old =>
    show ((if r.1 < old.1 then dictSet inner s r else inner).map (fun q => q.1)).Nodup
    by_cases hlt : r.1 < old.1
    · rw [if_pos hlt, dictSet_keys]
      exact h
    · rw [if_neg hlt]
      exact h

/-- Lookup at the written pair after one reducer step: fresh insert, or
keep-vs-overwrite by strict deviation comparison. -/
lemma update_lookup2_none (data : Table) (b : RunKey) (s : String) (lat lon : ℝ)
    (t : ℕ) (δ : ℝ) (h : lookup2 data b s = none) :
    lookup2 (update_data_to_save data b s lat lon t δ) b s = some (t, δ, lat, lon) := by
  unfold update_data_to_save lookup2
  unfold lookup2 at h
  cases hb : alookup data b with
  | none =>
    rw [alookup_append_of_none hb]
    have hx : alookup [(b, updateInner [] s (t, δ, lat, lon))] b =
        some (updateInner [] s (t, δ, lat, lon)) := by simp [alookup]
    rw [hx, Option.some_bind, updateInner_lookup_self]
    rfl
  | some inner =>
    rw [hb, Option.some_bind] at h
    rw [alookup_dictSet_self, hb, Option.map_some', Option.some_bind,
      updateInner_lookup_self, h]

lemma update_lookup2_some (data : Table) (b : RunKey) (s : String) (lat lon : ℝ)
    (t : ℕ) (δ : ℝ) (old : BestRec) (h : lookup2 data b s = some old) :
    lookup2 (update_data_to_save data b s lat lon t δ) b s =
      some (if t < old.1 then (t, δ, lat, lon) else old) := by
  unfold update_data_to_save lookup2
  unfold lookup2 at h
  cases hb : alookup data b with
  | none => rw [hb, Option.none_bind] at h; cases h
  | some inner =>
    rw [hb, Option.some_bind] at h
    rw [alookup_dictSet_self, hb, Option.map_some', Option.some_bind,
      updateInner_lookup_self, h]

/-- One reducer step never touches any other (run key, stopId) pair. -/
lemma update_lookup2_frame (data : Table) (b : RunKey) (s : String) (lat lon : ℝ)
    (t : ℕ) (δ : ℝ) {b' : RunKey} {s' : String} (h : b' ≠ b ∨ s' ≠ s) :
    lookup2 (update_data_to_save data b s lat lon t δ) b' s' = lookup2 data b' s' := by
  unfold update_data_to_save lookup2
  by_cases hbb : b' = b
  · have hss : s' ≠ s := by
      rcases h with h | h
      · exact absurd hbb h
      · exact h
    subst hbb
    cases hb : alookup data b' with
    | none =>
      rw [alookup_append_of_none hb]
      have hx : alookup [(b', updateInner [] s (t, δ, lat, lon))] b' =
          some (updateInner [] s (t, δ, lat, lon)) := by simp [alookup]
      rw [hx, Option.some_bind, Option.none_bind, updateInner_lookup_ne _ _ _ hss]
      rfl
    | some inner =>
      rw [alookup_dictSet_self, hb, Option.map_some', Option.some_bind,
        updateInner_lookup_ne _ _ _ hss]
      rfl
  · cases hb : alookup data b with
    | none =>
      cases hb' : alookup data b' with
      | none =>
        rw [alookup_append_of_none hb']
        have hx : alookup [(b, updateInner [] s (t, δ, lat, lon))] b' = none := by
          simp [alookup, if_neg (fun he : b = b' => hbb he.symm)]
        rw [hx]
      | some inner' => rw [alookup_append_of_some hb']
    | some inner =>
      rw [alookup_dictSet_ne _ _ hbb]

/-- Well-formedness of the table as a model of Python's nested dicts: keys
are unique at both levels (Python dicts cannot hold duplicate keys). -/
def TableKeysOK (data : Table) : Prop :=
  (data.map (fun p => p.1)).Nodup ∧ ∀ p ∈ data, (p.2.map (fun q => q.1)).Nodup

lemma update_keysOK (data : Table) (b : RunKey) (s : String) (lat lon : ℝ)
    (t : ℕ) (δ : ℝ) (h : TableKeysOK data) :
    TableKeysOK (update_data_to_save data b s lat lon t δ) := by
  obtain ⟨h1, h2⟩ := h
  unfold update_data_to_save
  cases hb : alookup data b with
  | none =>
    constructor
    · rw [List.map_append, List.nodup_append]
      refine ⟨h1, by simp, ?_⟩
      intro x hx hx'
      simp only [List.map_cons, List.map_nil, List.mem_cons, List.not_mem_nil,
        or_false] at hx'
      exact alookup_none_not_mem hb (hx' ▸ hx)
    · intro p hp
      rcases List.mem_append.mp hp with hp | hp
      · exact h2 p hp
      · simp only [List.mem_cons, List.not_mem_nil, or_false] at hp
        rw [hp]
        have hnil : ((([] : List (String × BestRec))).map (fun q => q.1)).Nodup := by simp
        exact updateInner_keys_nodup s _ hnil
  | some inner =>
    constructor
    · rw [dictSet_keys]
      exact h1
    · intro p hp
      rcases mem_dictSet hp with hp | hp
      · exact h2 p hp
      · rw [hp]
        exact updateInner_keys_nodup s _ (h2 (b, inner) (alookup_some_mem hb))

lemma foldObs_cons (data : Table) (b : RunKey) (s : String) (o : BestRec)
    (obs : List BestRec) :
    foldObs data b s (o :: obs) =
      foldObs (update_data_to_save data b s o.2.2.1 o.2.2.2 o.1 o.2.1) b s obs := rfl

lemma foldObs_stored_time (b : RunKey) (s : String) :
    ∀ (obs : List BestRec) (data : Table) (r0 : BestRec),
      lookup2 data b s = some r0 →
      ∃ r : BestRec, lookup2 (foldObs data b s obs) b s = some r ∧
        r.1 = (obs.map (fun o => o.1)).foldl min r0.1 := by
  intro obs
  induction obs with
  | nil =>
    intro data r0 h
    exact ⟨r0, h, rfl⟩
  | cons o rest ih =>
    intro data r0 h
    have hstep := update_lookup2_some data b s o.2.2.1 o.2.2.2 o.1 o.2.1 r0 h
    rw [foldObs_cons]
    by_cases hlt : o.1 < r0.1
    · rw [if_pos hlt] at hstep
      obtain ⟨r, hr, hf⟩ := ih _ _ hstep
      refine ⟨r, hr, ?_⟩
      rw [hf]
      simp only [List.map_cons, List.foldl_cons]
      congr 1
      exact (min_eq_right (le_of_lt hlt)).symm
    · rw [if_neg hlt] at hstep
      obtain ⟨r, hr, hf⟩ := ih _ _ hstep
      refine ⟨r, hr, ?_⟩
      rw [hf]
      simp only [List.map_cons, List.foldl_cons]
      congr 1
      exact (min_eq_left (Nat.le_of_not_lt hlt)).symm

lemma foldl_min_mem (a : ℕ) (l : List ℕ) : l.foldl min a ∈ a :: l := by
  induction l generalizing a with
  | nil => simp
  | cons x xs ih =>
    rw [List.foldl_cons]
    rcases List.mem_cons.mp (ih (min a x)) with h | h
    · rcases Nat.le_total a x with hax | hxa
      · rw [h, min_eq_left hax]
        exact List.mem_cons_self _ _
      · rw [h, min_eq_right hxa]
        exact List.mem_cons_of_mem _ (List.mem_cons_self _ _)
    · exact List.mem_cons_of_mem _ (List.mem_cons_of_mem _ h)

lemma foldl_min_le (a : ℕ) (l : List ℕ) : ∀ x ∈ a :: l, l.foldl min a ≤ x := by
  induction l generalizing a with
  | nil =>
    intro x hx
    simp only [List.mem_cons, List.not_mem_nil, or_false] at hx
    rw [hx]
    exact le_refl _
  | cons y ys ih =>
    intro x hx
    rw [List.foldl_cons]
    have hhead := ih (min a y) (min a y) (List.mem_cons_self _ _)
    rcases List.mem_cons.mp hx with h1 | h2
    · rw [h1]
      exact le_trans hhead (min_le_left a y)
    · rcases List.mem_cons.mp h2 with h2a | h2b
      · rw [h2a]
        exact le_trans hhead (min_le_right a y)
      · exact ih (min a y) x (List.mem_cons_of_mem _ h2b)

lemma foldObs_fresh_min (data : Table) (b : RunKey) (s : String) (o : BestRec)
    (obs : List BestRec) (h : lookup2 data b s = none) :
    ∃ r : BestRec, lookup2 (foldObs data b s (o :: obs)) b s = some r ∧
      r.1 ∈ (o :: obs).map (fun x => x.1) ∧
      ∀ d ∈ (o :: obs).map (fun x => x.1), r.1 ≤ d := by
  have h1 := update_lookup2_none data b s o.2.2.1 o.2.2.2 o.1 o.2.1 h
  rw [foldObs_cons]
  obtain ⟨r, hr, hf⟩ := foldObs_stored_time b s obs _ _ h1
  refine ⟨r, hr, ?_, ?_⟩
  · rw [hf]
    simpa using foldl_min_mem o.1 (obs.map (fun x => x.1))
  · intro d hd
    rw [hf]
    exact foldl_min_le o.1 (obs.map (fun x => x.1)) d (by simpa using hd)

/-- C2: the best-record table keeps at most one record per
(run key, stopId) pair (key uniqueness is preserved by every fold step), an
existing record is overwritten exactly when the new deviation is strictly
smaller, and after folding any nonempty sequence of observations for a
fresh pair the stored deviation is the minimum of the observed deviations —
independently of the fold order. -/
theorem C2_reducer_best_record :
    (∀ (data : Table) (b : RunKey) (s : String) (lat lon : ℝ) (t : ℕ) (δ : ℝ),
      TableKeysOK data → TableKeysOK (update_data_to_save data b s lat lon t δ)) ∧
    (∀ (data : Table) (b : RunKey) (s : String) (lat lon : ℝ) (t : ℕ) (δ : ℝ)
      (old : BestRec), lookup2 data b s = some old →
      lookup2 (update_data_to_save data b s lat lon t δ) b s =
        some (if t < old.1 then (t, δ, lat, lon) else old)) ∧
    (∀ (data : Table) (b : RunKey) (s : String) (o : BestRec) (obs : List BestRec),
      lookup2 data b s = none →
      ∃ r : BestRec, lookup2 (foldObs data b s (o :: obs)) b s = some r ∧
        r.1 ∈ (o :: obs).map (fun x => x.1) ∧
        ∀ d ∈ (o :: obs).map (fun x => x.1), r.1 ≤ d) ∧
    (∀ (data : Table) (b : RunKey) (s : String) (obs obs' : List BestRec),
      lookup2 data b s = none → obs.Perm obs' →
      (lookup2 (foldObs data b s obs) b s).map (fun x => x.1) =
        (lookup2 (foldObs data b s obs') b s).map (fun x => x.1)) := by
  refine ⟨update_keysOK, update_lookup2_some, foldObs_fresh_min, ?_⟩
  intro data b s obs obs' h hperm
  cases obs with
  | nil =>
    have hnil : obs' = [] := hperm.symm.eq_nil
    rw [hnil]
  | cons o rest =>
    cases obs' with
    | nil => cases hperm.eq_nil
    | cons o' rest' =>
      obtain ⟨r, hr, hmem, hlb⟩ := foldObs_fresh_min data b s o rest h
      obtain ⟨r', hr', hmem', hlb'⟩ := foldObs_fresh_min data b s o' rest' h
      rw [hr, hr']
      have hmp : ((o :: rest).map (fun x => x.1)).Perm ((o' :: rest').map (fun x => x.1)) :=
        hperm.map _
      have h1 : r.1 ≤ r'.1 := hlb _ (hmp.mem_iff.mpr hmem')
      have h2 : r'.1 ≤ r.1 := hlb' _ (hmp.mem_iff.mp hmem)
      simp only [Option.map_some']
      exact congrArg some (le_antisymm h1 h2)

/-- Witness for C2 at concrete inputs: a fresh insert keeps keys unique; a
second observation with deviation 120 overwrites a stored 400; folding
(400 then 120) or (120 then 400) for the same pair stores deviation 120
either way. -/
theorem C2_reducer_best_record_witness :
    TableKeysOK (update_data_to_save [] ("1000", "213", "5") "R01" 52 21 400 0) ∧
    lookup2 (update_data_to_save [(("1000", "213", "5"), [("R01", (400, 0, 52, 21))])]
        ("1000", "213", "5") "R01" 52 21 120 0) ("1000", "213", "5") "R01" =
      some (if 120 < (400 : ℕ) then ((120 : ℕ), (0 : ℝ), (52 : ℝ), (21 : ℝ))
        else (400, 0, 52, 21)) ∧
    (∃ r : BestRec,
      lookup2 (foldObs [] ("1000", "213", "5") "R01" [(400, 0, 52, 21), (120, 0, 52, 21)])
        ("1000", "213", "5") "R01" = some r ∧
      r.1 ∈ ([((400 : ℕ), (0 : ℝ), (52 : ℝ), (21 : ℝ)), (120, 0, 52, 21)]).map
        (fun x => x.1) ∧
      ∀ d ∈ ([((400 : ℕ), (0 : ℝ), (52 : ℝ), (21 : ℝ)), (120, 0, 52, 21)]).map
        (fun x => x.1), r.1 ≤ d) ∧
    (lookup2 (foldObs [] ("1000", "213", "5") "R01" [(400, 0, 52, 21), (120, 0, 52, 21)])
        ("1000", "213", "5") "R01").map (fun x => x.1) =
      (lookup2 (foldObs [] ("1000", "213", "5") "R01" [(120, 0, 52, 21), (400, 0, 52, 21)])
        ("1000", "213", "5") "R01").map (fun x => x.1) := by
  refine ⟨?_, ?_, ?_, ?_⟩
  · exact C2_reducer_best_record.1 [] ("1000", "213", "5") "R01" 52 21 400 0
      (by constructor <;> simp)
  · exact C2_reducer_best_record.2.1 _ _ _ 52 21 120 0 (400, 0, 52, 21) rfl
  · exact C2_reducer_best_record.2.2.1 [] ("1000", "213", "5") "R01"
      (400, 0, 52, 21) [(120, 0, 52, 21)] rfl
  · exact C2_reducer_best_record.2.2.2 [] ("1000", "213", "5") "R01"
      [(400, 0, 52, 21), (120, 0, 52, 21)] [(120, 0, 52, 21), (400, 0, 52, 21)] rfl
      (List.Perm.swap _ _ _)

lemma processBus_match (data : Table)
    (schedule : List (String × List (String × RunSchedule))) (bus_stops : Registry)
    (bus : Fix) (lineS : List (String × RunSchedule)) (runS : RunSchedule)
    (stop : String) (h1 : tramCheck bus.lines = some false)
    (h2 : alookup schedule bus.lines = some lineS)
    (h3 : alookup lineS bus.brigade = some runS)
    (h4 : (find_closest_stop bus runS bus_stops).1 = some stop) :
    processBus data schedule bus_stops bus =
      some (update_data_to_save data
        (get_busID bus.vehicleNumber bus.lines bus.brigade) stop bus.lat bus.lon
        (find_closest_stop bus runS bus_stops).2.2
        (find_closest_stop bus runS bus_stops).2.1) := by
  unfold processBus
  simp only [h1, h2, h3, h4]

/-- C10: every fold step of the Deviation Reducer hands back the table
itself — the Dataset Builder's step on a matched fix produces
`some (update_data_to_save ...)`, never an absent table — one step never
changes any other (run key, stopId) entry, and it never removes an entry. -/
theorem C10_reducer_frame :
    (∀ (data : Table) (schedule : List (String × List (String × RunSchedule)))
      (bus_stops : Registry) (bus : Fix) (lineS : List (String × RunSchedule))
      (runS : RunSchedule) (stop : String),
      tramCheck bus.lines = some false →
      alookup schedule bus.lines = some lineS →
      alookup lineS bus.brigade = some runS →
      (find_closest_stop bus runS bus_stops).1 = some stop →
      processBus data schedule bus_stops bus =
        some (update_data_to_save data
          (get_busID bus.vehicleNumber bus.lines bus.brigade) stop bus.lat bus.lon
          (find_closest_stop bus runS bus_stops).2.2
          (find_closest_stop bus runS bus_stops).2.1)) ∧
    (∀ (data : Table) (b : RunKey) (s : String) (lat lon : ℝ) (t : ℕ) (δ : ℝ)
      (b' : RunKey) (s' : String), b' ≠ b ∨ s' ≠ s →
      lookup2 (update_data_to_save data b s lat lon t δ) b' s' = lookup2 data b' s') ∧
    (∀ (data : Table) (b : RunKey) (s : String) (lat lon : ℝ) (t : ℕ) (δ : ℝ)
      (b' : RunKey) (s' : String) (r : BestRec), lookup2 data b' s' = some r →
      ∃ r' : BestRec,
        lookup2 (update_data_to_save data b s lat lon t δ) b' s' = some r') := by
  refine ⟨processBus_match, ?_, ?_⟩
  · intro data b s lat lon t δ b' s' h
    exact update_lookup2_frame data b s lat lon t δ h
  · intro data b s lat lon t δ b' s' r h
    by_cases hbb : b' = b
    · by_cases hss : s' = s
      · subst hbb
        subst hss
        exact ⟨_, update_lookup2_some data b' s' lat lon t δ r h⟩
      · exact ⟨r, (update_lookup2_frame data b s lat lon t δ (Or.inr hss)).trans h⟩
    · exact ⟨r, (update_lookup2_frame data b s lat lon t δ (Or.inl hbb)).trans h⟩

/-- Witness for C10 at concrete inputs: a matched fix yields `some` of the
updated table; an update leaves a different run key's entry unchanged; an
update at a different stop does not remove an existing record. -/
theorem C10_reducer_frame_witness :
    processBus [] [("213", [("5", [("S", [⟨12, 1, 40⟩])])])] [("S", (52, 21))]
        ⟨"1000", "213", "5", 52, 21, ⟨12, 0, 0⟩⟩ =
      some (update_data_to_save []
        (get_busID "1000" "213" "5") "S" (52 : ℝ) (21 : ℝ)
        ((find_closest_stop ⟨"1000", "213", "5", 52, 21, ⟨12, 0, 0⟩⟩
            [("S", [⟨12, 1, 40⟩])] [("S", (52, 21))]).2.2)
        ((find_closest_stop ⟨"1000", "213", "5", 52, 21, ⟨12, 0, 0⟩⟩
            [("S", [⟨12, 1, 40⟩])] [("S", (52, 21))]).2.1)) ∧
    lookup2 (update_data_to_save [] ("1000", "213", "5") "S" 52 21 100 0)
        ("9999", "213", "5") "S" = lookup2 [] ("9999", "213", "5") "S" ∧
    (∃ r' : BestRec, lookup2 (update_data_to_save
        [(("1000", "213", "5"), [("S", (400, 0, 52, 21))])]
        ("1000", "213", "5") "T" 52 21 100 0) ("1000", "213", "5") "S" = some r') := by
  have hl : alookup ([("S", ((52 : ℝ), (21 : ℝ)))] : Registry) "S" = some (52, 21) := rfl
  have hzero := calculate_distance_self (52 : ℝ) (21 : ℝ)
  have hnear : calculate_distance 52 21 52 21 < (0.01 : ℝ) := by rw [hzero]; norm_num
  have hok : ¬ ((3600 : ℕ) ≤ foldTimes ⟨12, 0, 0⟩ 3600 [⟨12, 1, 40⟩]) := by decide
  have hfind : find_closest_stop ⟨"1000", "213", "5", 52, 21, ⟨12, 0, 0⟩⟩
      [("S", [⟨12, 1, 40⟩])] [("S", (52, 21))] =
      (some "S", calculate_distance 52 21 52 21,
        foldTimes ⟨12, 0, 0⟩ 3600 [⟨12, 1, 40⟩]) := by
    unfold find_closest_stop
    rw [List.foldl_cons, List.foldl_nil]
    exact stepStop_accept [("S", (52, 21))] ⟨"1000", "213", "5", 52, 21, ⟨12, 0, 0⟩⟩
      (none, (0.01 : ℝ), (3600 : ℕ)) "S" [⟨12, 1, 40⟩] (52, 21) hl hnear hok
  refine ⟨?_, ?_, ?_⟩
  · exact C10_reducer_frame.1 [] _ _ _ [("5", [("S", [⟨12, 1, 40⟩])])]
      [("S", [⟨12, 1, 40⟩])] "S" (by decide) rfl rfl (by rw [hfind])
  · exact C10_reducer_frame.2.1 [] ("1000", "213", "5") "S" 52 21 100 0
      ("9999", "213", "5") "S" (Or.inl (by decide))
  · exact C10_reducer_frame.2.2 _ ("1000", "213", "5") "T" 52 21 100 0
      ("1000", "213", "5") "S" (400, 0, 52, 21) rfl

lemma foldTimes_le (busTime : HMS) : ∀ (times : List HMS) (m : ℕ),
    foldTimes busTime m times ≤ m := by
  intro times
  induction times with
  | nil => intro m; exact le_refl m
  | cons t ts ih =>
    intro m
    calc foldTimes busTime m (t :: ts)
        = foldTimes busTime (min m (timeDiff (fixScheduleHour t) busTime)) ts := rfl
      _ ≤ min m (timeDiff (fixScheduleHour t) busTime) := ih _
      _ ≤ m := min_le_left _ _

lemma stepStop_some_preserved (bus_stops : Registry) (bus : Fix) (st : MatchState)
    (entry : String × List HMS) (h : ∃ v, st.1 = some v) :
    ∃ v, (stepStop bus_stops bus st entry).1 = some v := by
  obtain ⟨s0, ts⟩ := entry
  cases halo : alookup bus_stops s0 with
  | none =>
    rw [stepStop_missing bus_stops bus st s0 ts halo]
    exact h
  | some coords =>
    by_cases hd : calculate_distance bus.lat bus.lon coords.1 coords.2 < st.2.1
    · by_cases hm : 3600 ≤ foldTimes bus.timeOfDay st.2.2 ts
      · rw [stepStop_reject bus_stops bus st s0 ts coords halo hd hm]
        exact h
      · rw [stepStop_accept bus_stops bus st s0 ts coords halo hd hm]
        exact ⟨s0, rfl⟩
    · rw [stepStop_too_far bus_stops bus st s0 ts coords halo hd]
      exact h

lemma foldl_some_preserved (bus_stops : Registry) (bus : Fix) :
    ∀ (l : List (String × List HMS)) (st : MatchState), (∃ v, st.1 = some v) →
      ∃ v, (l.foldl (stepStop bus_stops bus) st).1 = some v := by
  intro l
  induction l with
  | nil => intro st h; exact h
  | cons e rest ih =>
    intro st h
    rw [List.foldl_cons]
    exact ih _ (stepStop_some_preserved bus_stops bus st e h)

/-- If no candidate stop is accepted, the matcher's state never moves off
the initial sentinel `(None, 0.01, 3600)`. -/
lemma find_none_sentinel (bus : Fix) (run_schedule : RunSchedule) (bus_stops : Registry)
    (h : (find_closest_stop bus run_schedule bus_stops).1 = none) :
    find_closest_stop bus run_schedule bus_stops = (none, 0.01, 3600) := by
  unfold find_closest_stop at h ⊢
  suffices H : ∀ (l : List (String × List HMS)) (st : MatchState),
      st = (none, 0.01, 3600) → (l.foldl (stepStop bus_stops bus) st).1 = none →
      l.foldl (stepStop bus_stops bus) st = (none, 0.01, 3600) from
    H run_schedule _ rfl h
  intro l
  induction l with
  | nil =>
    intro st hst _
    rw [List.foldl_nil]
    exact hst
  | cons e rest ih =>
    intro st hst hnone
    subst hst
    obtain ⟨s0, ts⟩ := e
    rw [List.foldl_cons] at hnone ⊢
    cases halo : alookup bus_stops s0 with
    | none =>
      rw [stepStop_missing bus_stops bus _ s0 ts halo] at hnone ⊢
      exact ih _ rfl hnone
    | some coords =>
      by_cases hd : calculate_distance bus.lat bus.lon coords.1 coords.2 < (0.01 : ℝ)
      · by_cases hm : (3600 : ℕ) ≤ foldTimes bus.timeOfDay 3600 ts
        · rw [stepStop_reject bus_stops bus _ s0 ts coords halo hd hm] at hnone ⊢
          dsimp only at hnone ⊢
          have heq : foldTimes bus.timeOfDay 3600 ts = 3600 :=
            le_antisymm (foldTimes_le bus.timeOfDay ts 3600) hm
          rw [heq] at hnone ⊢
          exact ih _ rfl hnone
        · rw [stepStop_accept bus_stops bus _ s0 ts coords halo hd hm] at hnone
          obtain ⟨v, hv⟩ := foldl_some_preserved bus_stops bus rest
            (some s0, calculate_distance bus.lat bus.lon coords.1 coords.2,
              foldTimes bus.timeOfDay 3600 ts) ⟨s0, rfl⟩
          rw [hv] at hnone
          cases hnone
      · rw [stepStop_too_far bus_stops bus _ s0 ts coords halo hd] at hnone ⊢
        exact ih _ rfl hnone

/-- C9: when no candidate stop is accepted, the Stop Matcher returns exactly
the sentinel triple (None, 0.01, 3600) — the unchanged initial bounds — and
the Dataset Builder then skips the fix, leaving the best-record table
untouched. -/
theorem C9_no_match_sentinel_skip :
    (∀ (bus : Fix) (run_schedule : RunSchedule) (bus_stops : Registry),
      (find_closest_stop bus run_schedule bus_stops).1 = none →
      find_closest_stop bus run_schedule bus_stops = (none, 0.01, 3600)) ∧
    (∀ (data : Table) (schedule : List (String × List (String × RunSchedule)))
      (bus_stops : Registry) (bus : Fix) (lineS : List (String × RunSchedule))
      (runS : RunSchedule),
      tramCheck bus.lines = some false →
      alookup schedule bus.lines = some lineS →
      alookup lineS bus.brigade = some runS →
      (find_closest_stop bus runS bus_stops).1 = none →
      processBus data schedule bus_stops bus = some data) := by
  refine ⟨find_none_sentinel, ?_⟩
  intro data schedule bus_stops bus lineS runS h1 h2 h3 h4
  unfold processBus
  simp only [h1, h2, h3, h4]

/-- Witness for C9: a run with an empty timetable yields the sentinel and
the builder step returns the table unchanged. -/
theorem C9_no_match_sentinel_skip_witness :
    find_closest_stop ⟨"1000", "213", "5", 52, 21, ⟨12, 0, 0⟩⟩ [] [] =
      (none, 0.01, 3600) ∧
    processBus [] [("213", [("5", [])])] [] ⟨"1000", "213", "5", 52, 21, ⟨12, 0, 0⟩⟩ =
      some [] :=
  ⟨C9_no_match_sentinel_skip.1 ⟨"1000", "213", "5", 52, 21, ⟨12, 0, 0⟩⟩ [] [] rfl,
   C9_no_match_sentinel_skip.2 [] [("213", [("5", [])])] []
     ⟨"1000", "213", "5", 52, 21, ⟨12, 0, 0⟩⟩ [("5", [])] [] (by decide) rfl rfl rfl⟩

/-- C6: both matcher thresholds are strict.  A candidate stop at a distance
exactly equal to 0.01 km is not admitted while the bound is still at most
its initial 0.01 km (admission needs strictly less), and an admitted
candidate whose tracked minimum time deviation comes to exactly 3600
seconds is not accepted: the returned stop and distance bound stay
unchanged. -/
theorem C6_strict_thresholds :
    (∀ (bus_stops : Registry) (bus : Fix) (st : MatchState) (stop : String)
      (times : List HMS) (coords : ℝ × ℝ),
      alookup bus_stops stop = some coords →
      st.2.1 ≤ 0.01 →
      calculate_distance bus.lat bus.lon coords.1 coords.2 = 0.01 →
      stepStop bus_stops bus st (stop, times) = st) ∧
    (∀ (bus_stops : Registry) (bus : Fix) (st : MatchState) (stop : String)
      (times : List HMS) (coords : ℝ × ℝ),
      alookup bus_stops stop = some coords →
      calculate_distance bus.lat bus.lon coords.1 coords.2 < st.2.1 →
      foldTimes bus.timeOfDay st.2.2 times = 3600 →
      stepStop bus_stops bus st (stop, times) = (st.1, st.2.1, 3600)) := by
  constructor
  · intro bus_stops bus st stop times coords h hb hdist
    refine stepStop_too_far bus_stops bus st stop times coords h ?_
    rw [hdist]
    exact not_lt.mpr hb
  · intro bus_stops bus st stop times coords h hd heq
    have hm : 3600 ≤ foldTimes bus.timeOfDay st.2.2 times := le_of_eq heq.symm
    rw [stepStop_reject bus_stops bus st stop times coords h hd hm, heq]

/-- Witness for C6: a stop on the same meridian placed exactly 0.01 km away
is rejected from the initial state, and an admitted stop (distance 0) whose
only scheduled time is exactly one hour from the fix is not accepted. -/
theorem C6_strict_thresholds_witness :
    stepStop [("S", (52 + 1.8 / (6371 * Real.pi), 0))]
      ⟨"1000", "213", "5", 52, 0, ⟨12, 0, 0⟩⟩ (none, 0.01, 3600) ("S", [⟨13, 0, 0⟩]) =
      ((none : Option String), (0.01 : ℝ), (3600 : ℕ)) ∧
    stepStop [("T", (52, 21))] ⟨"1000", "213", "5", 52, 21, ⟨12, 0, 0⟩⟩
      (none, 0.01, 3600) ("T", [⟨13, 0, 0⟩]) =
      ((none : Option String), (0.01 : ℝ), (3600 : ℕ)) := by
  have hπ : (0 : ℝ) < Real.pi := Real.pi_pos
  have hπ3 : (3 : ℝ) < Real.pi := Real.pi_gt_three
  have hstep : (52 : ℝ) + 1.8 / (6371 * Real.pi) - 52 = 1.8 / (6371 * Real.pi) := by ring
  have hpos : (0 : ℝ) < 1.8 / (6371 * Real.pi) := by positivity
  have habs : |(52 : ℝ) + 1.8 / (6371 * Real.pi) - 52| = 1.8 / (6371 * Real.pi) := by
    rw [hstep]
    exact abs_of_pos hpos
  have hsmall : (1.8 : ℝ) / (6371 * Real.pi) < 180 := by
    rw [div_lt_iff (by positivity)]
    nlinarith
  have hdist : calculate_distance 52 0 (52 + 1.8 / (6371 * Real.pi)) 0 = 0.01 := by
    rw [calculate_distance_same_lon 52 (52 + 1.8 / (6371 * Real.pi)) 0
      (by rw [habs]; exact hsmall), habs]
    field_simp
    ring
  constructor
  · exact C6_strict_thresholds.1 [("S", (52 + 1.8 / (6371 * Real.pi), 0))]
      ⟨"1000", "213", "5", 52, 0, ⟨12, 0, 0⟩⟩ (none, 0.01, 3600) "S" [⟨13, 0, 0⟩]
      (52 + 1.8 / (6371 * Real.pi), 0) rfl (le_refl _) hdist
  · have hzero := calculate_distance_self (52 : ℝ) (21 : ℝ)
    have hnear : calculate_distance 52 21 52 21 < (0.01 : ℝ) := by
      rw [hzero]; norm_num
    exact C6_strict_thresholds.2 [("T", (52, 21))]
      ⟨"1000", "213", "5", 52, 21, ⟨12, 0, 0⟩⟩ (none, 0.01, 3600) "T" [⟨13, 0, 0⟩]
      (52, 21) rfl hnear (by decide)

/-- C1: evaluation of the matcher on a fix 5 seconds after the only
scheduled time of a coincident stop.  The claim's reading (absolute
difference, 5 s, hence a match with deviation 5) does not hold: the code's
use of `timedelta.seconds` turns the -5 s difference into 86395 s, so the
admitted stop is rejected and the sentinel is returned. -/
theorem C1_seconds_pitfall_eval :
    find_closest_stop ⟨"1000", "213", "5", 52, 21, ⟨1, 0, 5⟩⟩ [("S", [⟨1, 0, 0⟩])]
      [("S", (52, 21))] = (none, 0.01, 3600) := by
  have hl : alookup ([("S", ((52 : ℝ), (21 : ℝ)))] : Registry) "S" = some (52, 21) := rfl
  have hzero := calculate_distance_self (52 : ℝ) (21 : ℝ)
  have hnear : calculate_distance 52 21 52 21 < (0.01 : ℝ) := by rw [hzero]; norm_num
  have hm : (3600 : ℕ) ≤ foldTimes ⟨1, 0, 5⟩ 3600 [⟨1, 0, 0⟩] := by decide
  unfold find_closest_stop
  rw [List.foldl_cons, List.foldl_nil]
  rw [stepStop_reject [("S", (52, 21))] ⟨"1000", "213", "5", 52, 21, ⟨1, 0, 5⟩⟩
    (none, (0.01 : ℝ), (3600 : ℕ)) "S" [⟨1, 0, 0⟩] (52, 21) hl hnear hm]
  dsimp only
  rw [show foldTimes ⟨1, 0, 5⟩ 3600 [⟨1, 0, 0⟩] = 3600 from by decide]

/-- C4: the past-midnight entry "25:00:00" is normalized to 01:00:00, but
against a fix at time-of-day 01:00:05 the code computes a deviation of
86395 seconds (`timedelta.seconds` of a -5 s difference), not the claimed
5 seconds. -/
theorem C4_past_midnight_eval :
    fixScheduleHour ⟨25, 0, 0⟩ = ⟨1, 0, 0⟩ ∧
    timeDiff (fixScheduleHour ⟨25, 0, 0⟩) ⟨1, 0, 5⟩ = 86395 ∧
    timeDiff (fixScheduleHour ⟨25, 0, 0⟩) ⟨1, 0, 5⟩ ≠ 5 := by
  refine ⟨by decide, by decide, by decide⟩

/-- C3: evaluation against the claim's premise.  Stop "A" (farther, ~5.6 m)
is accepted with deviation 100 s; stop "B" is strictly closer (~2.2 m) and
every scheduled time of "B" is 18000 s away (not strictly below 3600).  The
code still accepts "B" — `min_time` is already 100 from "A", so the
`>= 3600` rejection cannot fire — and returns "B" with the deviation
inherited from "A"'s timetable, contradicting the claim that the previous,
farther match is kept. -/
theorem C3_closer_stop_accepted_eval :
    find_closest_stop ⟨"1000", "213", "5", 52, 21, ⟨12, 0, 0⟩⟩
      [("A", [⟨12, 1, 40⟩]), ("B", [⟨17, 0, 0⟩])]
      [("A", (52.00005, 21)), ("B", (52.00002, 21))] =
      (some "B", calculate_distance 52 21 52.00002 21, 100) := by
  have hπ : (0 : ℝ) < Real.pi := Real.pi_pos
  have hπ2 : Real.pi < 3.15 := Real.pi_lt_d2
  have habsA : |(52.00005 : ℝ) - 52| = 0.00005 := by
    rw [show (52.00005 : ℝ) - 52 = 0.00005 by norm_num]
    exact abs_of_pos (by norm_num)
  have habsB : |(52.00002 : ℝ) - 52| = 0.00002 := by
    rw [show (52.00002 : ℝ) - 52 = 0.00002 by norm_num]
    exact abs_of_pos (by norm_num)
  have hdA : calculate_distance 52 21 52.00005 21 = 6371 * ((0.00005 : ℝ) * Real.pi / 180) := by
    rw [calculate_distance_same_lon 52 52.00005 21 (by rw [habsA]; norm_num), habsA]
  have hdB : calculate_distance 52 21 52.00002 21 = 6371 * ((0.00002 : ℝ) * Real.pi / 180) := by
    rw [calculate_distance_same_lon 52 52.00002 21 (by rw [habsB]; norm_num), habsB]
  have hdA_lt : calculate_distance 52 21 52.00005 21 < (0.01 : ℝ) := by
    rw [hdA]
    nlinarith
  have hdBA : calculate_distance 52 21 52.00002 21 < calculate_distance 52 21 52.00005 21 := by
    rw [hdA, hdB]
    nlinarith
  have hlA : alookup ([("A", ((52.00005 : ℝ), (21 : ℝ))), ("B", ((52.00002 : ℝ), (21 : ℝ)))] :
      Registry) "A" = some (52.00005, 21) := rfl
  have hlB : alookup ([("A", ((52.00005 : ℝ), (21 : ℝ))), ("B", ((52.00002 : ℝ), (21 : ℝ)))] :
      Registry) "B" = some (52.00002, 21) := rfl
  have hokA : ¬ ((3600 : ℕ) ≤ foldTimes ⟨12, 0, 0⟩ 3600 [⟨12, 1, 40⟩]) := by decide
  have hokB : ¬ ((3600 : ℕ) ≤
      foldTimes ⟨12, 0, 0⟩ (foldTimes ⟨12, 0, 0⟩ 3600 [⟨12, 1, 40⟩]) [⟨17, 0, 0⟩]) := by
    decide
  unfold find_closest_stop
  rw [List.foldl_cons, List.foldl_cons, List.foldl_nil]
  rw [stepStop_accept [("A", (52.00005, 21)), ("B", (52.00002, 21))]
    ⟨"1000", "213", "5", 52, 21, ⟨12, 0, 0⟩⟩ (none, (0.01 : ℝ), (3600 : ℕ))
    "A" [⟨12, 1, 40⟩] (52.00005, 21) hlA hdA_lt hokA]
  dsimp only
  rw [stepStop_accept [("A", (52.00005, 21)), ("B", (52.00002, 21))]
    ⟨"1000", "213", "5", 52, 21, ⟨12, 0, 0⟩⟩
    (some "A", calculate_distance 52 21 52.00005 21, foldTimes ⟨12, 0, 0⟩ 3600 [⟨12, 1, 40⟩])
    "B" [⟨17, 0, 0⟩] (52.00002, 21) hlB hdBA hokB]
  dsimp only
  rw [show foldTimes ⟨12, 0, 0⟩ (foldTimes ⟨12, 0, 0⟩ 3600 [⟨12, 1, 40⟩]) [⟨17, 0, 0⟩] = 100
    from by decide]

/-- C7: a fix is excluded as a tram exactly when the line identifier's
numeric value is below 100 and the identifier string is lexicographically
below "999"; in particular "042" is excluded and "7042" is retained, and an
excluded fix leaves the builder's table unchanged. -/
theorem C7_tram_filter :
    (∀ (lines : String) (n : ℕ), pyInt lines = some n →
      (tramCheck lines = some true ↔ (n < 100 ∧ lines < "999"))) ∧
    tramCheck "042" = some true ∧
    tramCheck "7042" = some false ∧
    (∀ (data : Table) (schedule : List (String × List (String × RunSchedule)))
      (bus_stops : Registry) (bus : Fix),
      tramCheck bus.lines = some true →
      processBus data schedule bus_stops bus = some data) := by
  refine ⟨?_, by decide, by decide, ?_⟩
  · intro lines n h
    have hconv : (lines < ("999" : String)) ↔ lines.data < ("999" : String).data :=
      String.lt_iff_toList_lt
    unfold tramCheck
    by_cases hlt : lines.data < ("999" : String).data
    · rw [if_pos hlt, h]
      constructor
      · intro htrue
        simp only [Option.map_some'] at htrue
        exact ⟨of_decide_eq_true (Option.some.inj htrue), hconv.mpr hlt⟩
      · rintro ⟨hn, _⟩
        simp only [Option.map_some', decide_eq_true hn]
    · rw [if_neg hlt]
      constructor
      · intro hfalse
        cases hfalse
      · rintro ⟨_, hl⟩
        exact absurd (hconv.mp hl) hlt
  · intro data schedule bus_stops bus h
    unfold processBus
    simp only [h]

/-- Witness for C7 at line "042" (numeric value 42): the filter equivalence
holds and the builder step on a tram fix returns the table unchanged. -/
theorem C7_tram_filter_witness :
    (tramCheck "042" = some true ↔ ((42 : ℕ) < 100 ∧ ("042" : String) < "999")) ∧
    processBus [] [] [] ⟨"1000", "042", "5", 52, 21, ⟨12, 0, 0⟩⟩ = some [] :=
  ⟨C7_tram_filter.1 "042" 42 (by decide),
   C7_tram_filter.2.2.2 [] [] [] ⟨"1000", "042", "5", 52, 21, ⟨12, 0, 0⟩⟩ (by decide)⟩

/-- C8: the speed function returns 0 when the elapsed seconds are 0, and
whenever the raw computed speed (distance over hours) exceeds 90 km/h it
returns exactly 50 km/h — in particular it never exceeds 50 there. -/
theorem C8_velocity_clamp :
    (∀ (lat1 lon1 lat2 lon2 : ℝ), calculate_velocity lat1 lon1 lat2 lon2 0 = 0) ∧
    (∀ (lat1 lon1 lat2 lon2 time : ℝ), time ≠ 0 →
      calculate_distance lat1 lon1 lat2 lon2 / (time / 3600) > 90 →
      calculate_velocity lat1 lon1 lat2 lon2 time = 50) ∧
    (∀ (lat1 lon1 lat2 lon2 time : ℝ), time ≠ 0 →
      calculate_distance lat1 lon1 lat2 lon2 / (time / 3600) > 90 →
      ¬ (calculate_velocity lat1 lon1 lat2 lon2 time > 50)) := by
  have h0 : ∀ (lat1 lon1 lat2 lon2 : ℝ), calculate_velocity lat1 lon1 lat2 lon2 0 = 0 := by
    intro l1 o1 l2 o2
    show (if (if (0 : ℝ) = 0 then (0 : ℝ)
          else calculate_distance l1 o1 l2 o2 / (0 / 3600)) > 90 then (50 : ℝ)
        else (if (0 : ℝ) = 0 then (0 : ℝ)
          else calculate_distance l1 o1 l2 o2 / (0 / 3600))) = 0
    rw [if_pos rfl]
    rw [if_neg (by norm_num : ¬ ((0 : ℝ) > 90))]
  have h50 : ∀ (lat1 lon1 lat2 lon2 time : ℝ), time ≠ 0 →
      calculate_distance lat1 lon1 lat2 lon2 / (time / 3600) > 90 →
      calculate_velocity lat1 lon1 lat2 lon2 time = 50 := by
    intro l1 o1 l2 o2 t ht hraw
    show (if (if t = 0 then (0 : ℝ)
          else calculate_distance l1 o1 l2 o2 / (t / 3600)) > 90 then (50 : ℝ)
        else (if t = 0 then (0 : ℝ)
          else calculate_distance l1 o1 l2 o2 / (t / 3600))) = 50
    rw [if_neg ht, if_pos hraw]
  refine ⟨h0, h50, ?_⟩
  intro l1 o1 l2 o2 t ht hraw
  rw [h50 l1 o1 l2 o2 t ht hraw]
  norm_num

/-- Witness for C8: a pole-to-equator hop in one second has raw speed far
above 90 km/h and is clamped to exactly 50; zero elapsed time gives 0. -/
theorem C8_velocity_clamp_witness :
    calculate_velocity 0 0 90 0 0 = 0 ∧
    calculate_velocity 0 0 90 0 1 = 50 ∧
    ¬ (calculate_velocity 0 0 90 0 1 > 50) := by
  have hd : calculate_distance 0 0 90 0 = 6371 * ((90 : ℝ) * Real.pi / 180) := by
    rw [calculate_distance_same_lon 0 90 0
      (by rw [sub_zero, abs_of_pos (by norm_num : (0 : ℝ) < 90)]; norm_num)]
    rw [sub_zero, abs_of_pos (by norm_num : (0 : ℝ) < 90)]
  have hraw : calculate_distance 0 0 90 0 / ((1 : ℝ) / 3600) > 90 := by
    rw [hd, gt_iff_lt, lt_div_iff (by norm_num : (0 : ℝ) < 1 / 3600)]
    nlinarith [Real.pi_gt_three]
  exact ⟨C8_velocity_clamp.1 0 0 90 0,
    C8_velocity_clamp.2.1 0 0 90 0 1 (by norm_num) hraw,
    C8_velocity_clamp.2.2 0 0 90 0 1 (by norm_num) hraw⟩

end WarsawBus
